import Mathlib

/-!
A shallow embedding of the channel-name reconciliation logic of
`battlemetrics.py` (a RedBot cog mirroring BattleMetrics game-server state
into Discord voice-channel names), together with proofs about it.

The embedding covers:
* a model of Python `str.format` restricted to keyword substitution with
  plain field names, doubled-brace escapes, and stray-brace errors (the
  source only ever calls `.format` with the four keywords `players`, `max`,
  `name`, `status`; conversion and format-spec syntax is not modelled, and
  for templates mixing several malformed parts the model reports the parse
  error first while CPython interleaves parsing with substitution);
* attribute extraction and name formatting of `_update_all_channels`
  (source lines 111-163), `refresh_servers` (lines 372-423) and
  `add_server` (lines 229-317);
* the per-entry control flow of one pass: channel-id truthiness test,
  channel resolution, fetch, format, truncation, conditional rename with
  `discord.HTTPException` caught, and the 2-second pacing sleep;
* `_fetch_server_info` (lines 83-109) as a function of the HTTP outcome.
-/

/-- Exceptions that Python `str.format` raises on the template shapes we
model: `KeyError` for an unknown keyword field, `IndexError` for an empty
or numeric (positional) field with no positional arguments, `ValueError`
for stray or unterminated braces. -/
inductive FmtErr where
  | keyError (key : String)
  | indexError
  | valueError
  deriving DecidableEq

/-- The opening curly-brace character (code point 123). -/
def lbraceC : Char := Char.ofNat 123

/-- The closing curly-brace character (code point 125). -/
def rbraceC : Char := Char.ofNat 125

/-- A parsed token of a format template: one literal character, or a
replacement field with its name. -/
inductive FTok where
  | lit (c : Char)
  | field (fname : String)
  deriving DecidableEq

/-- Tokenizer for Python `str.format` templates.  The first argument is the
scanning mode: `none` while outside a replacement field, `some acc` while
inside one, `acc` holding the field-name characters read so far in reverse.
Doubled braces become literal brace characters; a stray closing brace, an
unterminated field and a brace inside a field name are `ValueError`; an
empty or all-digit field name (a positional field, while only keyword
arguments are supplied) is `IndexError`. -/
def tokenizeAux : Option (List Char) → List Char → Except FmtErr (List FTok)
  | none, [] => Except.ok []
  | some _, [] => Except.error FmtErr.valueError
  | none, c :: rest =>
    if c = lbraceC then
      match rest with
      | [] => Except.error FmtErr.valueError
      | r :: rest2 =>
        if r = lbraceC then (tokenizeAux none rest2).map (fun ts => FTok.lit lbraceC :: ts)
        else if r = rbraceC then Except.error FmtErr.indexError
        else tokenizeAux (some [r]) rest2
    else if c = rbraceC then
      match rest with
      | [] => Except.error FmtErr.valueError
      | r :: rest2 =>
        if r = rbraceC then (tokenizeAux none rest2).map (fun ts => FTok.lit rbraceC :: ts)
        else Except.error FmtErr.valueError
    else (tokenizeAux none rest).map (fun ts => FTok.lit c :: ts)
  | some acc, c :: rest =>
    if c = rbraceC then
      if (String.mk acc.reverse).data.all Char.isDigit then Except.error FmtErr.indexError
      else (tokenizeAux none rest).map (fun ts => FTok.field (String.mk acc.reverse) :: ts)
    else if c = lbraceC then Except.error FmtErr.valueError
    else tokenizeAux (some (c :: acc)) rest

/-- Renders a token list, substituting each field through the keyword map
`vals`; an unknown field name raises `KeyError` with that name. -/
def renderToks (vals : String → Option String) : List FTok → Except FmtErr (List Char)
  | [] => Except.ok []
  | FTok.lit c :: ts => (renderToks vals ts).map (fun out => c :: out)
  | FTok.field f :: ts =>
    match vals f with
    | some v => (renderToks vals ts).map (fun out => v.data ++ out)
    | none => Except.error (FmtErr.keyError f)

/-- Model of `tmpl.format(**vals)`: tokenize the template, then substitute. -/
def pyFormat (tmpl : String) (vals : String → Option String) : Except FmtErr String :=
  match tokenizeAux none tmpl.data with
  | Except.error e => Except.error e
  | Except.ok ts => (renderToks vals ts).map String.mk

/-- The keyword map of the source's `.format(players=..., max=..., name=...,
status=...)` calls; integers render through `str`. -/
def stdVals (playersV maxPlayersV : Nat) (nameV statusV : String) : String → Option String :=
  fun field =>
    if field = "players" then some (toString playersV)
    else if field = "max" then some (toString maxPlayersV)
    else if field = "name" then some nameV
    else if field = "status" then some statusV
    else none

/-- Python string slicing `s[:n]`, by code points. -/
def strTake (s : String) (n : Nat) : String := String.mk (s.data.take n)

/-- The attribute payload of one fetched server snapshot.  Every field is
optional, mirroring the source's `attributes.get(key, default)` access. -/
structure Attributes where
  players : Option Nat
  maxPlayers : Option Nat
  name : Option String
  status : Option String
  deriving DecidableEq

/-- Line 135: `attributes.get("players", 0)`. -/
def Attributes.playersD (a : Attributes) : Nat := a.players.getD 0

/-- Line 136: `attributes.get("maxPlayers", 0)`. -/
def Attributes.maxPlayersD (a : Attributes) : Nat := a.maxPlayers.getD 0

/-- Line 137: `attributes.get("name", "Unknown")`. -/
def Attributes.nameD (a : Attributes) : String := a.name.getD "Unknown"

/-- Line 138: `attributes.get("status", "offline")`. -/
def Attributes.statusD (a : Attributes) : String := a.status.getD "offline"

/-- The non-empty JSON object under the response's `data` key. -/
structure Payload where
  attributes : Option Attributes
  deriving DecidableEq

/-- Line 134: `info.get("attributes", \x7b\x7d)`. -/
def Payload.attrsD (p : Payload) : Attributes := p.attributes.getD ⟨none, none, none, none⟩

/-- One tracked-server entry as stored in guild config:
`\x7b"channel_id": int, "name": str, ...\x7d`, both keys possibly absent. -/
structure ServerData where
  channel_id : Option Nat
  name : Option String
  deriving DecidableEq

/-- A destination (voice) channel, observed through its current name. -/
structure Channel where
  name : String
  deriving DecidableEq

/-- Line 122: `if not channel_id: continue` — the id is usable only when the
key is present and non-zero (Python truthiness of an int). -/
def ServerData.channelIdTruthy (sd : ServerData) : Option Nat :=
  match sd.channel_id with
  | none => none
  | some 0 => none
  | some cid => some cid

/-- Lines 140-149 of `_update_all_channels`: the desired name before
truncation.  Offline status short-circuits to the `[OFFLINE]` label built
from the stored custom name, falling back to the snapshot name; otherwise
the guild's template is formatted. -/
def newNameRaw (channelFormat : String) (sd : ServerData) (attrs : Attributes) :
    Except FmtErr String :=
  if attrs.statusD = "offline" then
    Except.ok ("[OFFLINE] " ++ sd.name.getD attrs.nameD)
  else
    pyFormat channelFormat
      (stdVals attrs.playersD attrs.maxPlayersD (sd.name.getD attrs.nameD) attrs.statusD)

/-- Lines 140-152 of `_update_all_channels`: the name actually applied,
truncated to 100 characters after either branch. -/
def computeNewName (channelFormat : String) (sd : ServerData) (attrs : Attributes) :
    Except FmtErr String :=
  (newNameRaw channelFormat sd attrs).map (fun s => strTake s 100)

/-- Lines 405-413 of `refresh_servers`: the manual-refresh desired name.
Note the differences from the background pass: the offline fallback label is
the literal `"Unknown"` (not the snapshot name) and the offline branch is
not truncated; the template branch truncates inside the branch. -/
def refreshNameRaw (channelFormat : String) (sd : ServerData) (attrs : Attributes) :
    Except FmtErr String :=
  if attrs.statusD = "offline" then
    Except.ok ("[OFFLINE] " ++ sd.name.getD "Unknown")
  else
    (pyFormat channelFormat
        (stdVals attrs.playersD attrs.maxPlayersD (sd.name.getD "Unknown") attrs.statusD)).map
      (fun s => strTake s 100)

/-- Line 262 of `add_server`: `custom_name or attributes.get("name",
"Unknown Server")` — Python `or` falls through on `None` and on the empty
string. -/
def addLabel (attrs : Attributes) (customName : Option String) : String :=
  match customName with
  | some c => if c = "" then attrs.name.getD "Unknown Server" else c
  | none => attrs.name.getD "Unknown Server"

/-- Lines 287-293 of `add_server`: the initial channel name, formatted with
the literal status `"online"` and truncated to 100 characters. -/
def addServerName (channelFormat : String) (attrs : Attributes)
    (customName : Option String) : Except FmtErr String :=
  (pyFormat channelFormat
      (stdVals attrs.playersD attrs.maxPlayersD (addLabel attrs customName) "online")).map
    (fun s => strTake s 100)

/-- What `_fetch_server_info` hands back to its caller: `absent` is Python
`None`; `emptyData` is the falsy `data.get("data", \x7b\x7d)` default on a
200 response without a usable `data` object; `payload` is a non-empty data
object. -/
inductive FetchResult where
  | absent
  | emptyData
  | payload (p : Payload)
  deriving DecidableEq

/-- The `data` key of a parsed 200-response body. -/
inductive JsonData where
  | missing
  | emptyObj
  | obj (p : Payload)
  deriving DecidableEq

/-- Outcome of the single HTTP request of `_fetch_server_info`: a response
with a status code and parsed body, a 30-second timeout
(`asyncio.TimeoutError`), or any other raised error (network failures,
JSON errors — the bare `except Exception` arm). -/
inductive HttpResult where
  | response (code : Nat) (data : JsonData)
  | timeout
  | netError
  deriving DecidableEq

/-- Lines 93-109 of `_fetch_server_info`: 200 returns `data.get("data",
\x7b\x7d)`; 429, every other status, the timeout and every raised error all
return `None` (logged, never re-raised). -/
def fetchServerInfo (r : HttpResult) : FetchResult :=
  match r with
  | HttpResult.response code d =>
    if code = 200 then
      match d with
      | JsonData.missing => FetchResult.emptyData
      | JsonData.emptyObj => FetchResult.emptyData
      | JsonData.obj p => FetchResult.payload p
    else FetchResult.absent
  | HttpResult.timeout => FetchResult.absent
  | HttpResult.netError => FetchResult.absent

/-- Observable outcome of processing one tracked entry in a pass:
whether the fetch call was issued, the rename call with its argument
(`none` when no `channel.edit` happened), whether that rename raised
`discord.HTTPException` (caught and logged), and whether the trailing
2-second pacing sleep ran. -/
structure StepResult where
  fetchAttempted : Bool
  editCall : Option String
  editFailed : Bool
  slept : Bool
  deriving DecidableEq

/-- Lines 120-163 of `_update_all_channels`, one entry of the inner loop.
`lookup` is `guild.get_channel`; `fetch` is `_fetch_server_info`; `ok1 cid`
tells whether `channel.edit` on channel `cid` would succeed (`false` models
a `discord.HTTPException`).  A `.error` value is an uncaught exception from
`str.format` propagating out of the loop body. -/
def processEntry (channelFormat : String) (lookup : Nat → Option Channel)
    (fetch : String → FetchResult) (ok1 : Nat → Bool)
    (bmServerId : String) (sd : ServerData) : Except FmtErr StepResult :=
  match sd.channelIdTruthy with
  | none => Except.ok ⟨false, none, false, false⟩
  | some cid =>
    match lookup cid with
    | none => Except.ok ⟨false, none, false, false⟩
    | some channel =>
      match fetch bmServerId with
      | FetchResult.payload p =>
        match computeNewName channelFormat sd p.attrsD with
        | Except.error e => Except.error e
        | Except.ok newName =>
          if channel.name ≠ newName then
            Except.ok ⟨true, some newName, !(ok1 cid), true⟩
          else
            Except.ok ⟨true, none, false, true⟩
      | _ => Except.ok ⟨true, none, false, false⟩

/-- The whole inner loop of one tenant (guild) scope: entries in iteration
order; an uncaught per-entry exception propagates and the remaining entries
are never reached. -/
def processEntries (channelFormat : String) (lookup : Nat → Option Channel)
    (fetch : String → FetchResult) (ok1 : Nat → Bool) :
    List (String × ServerData) → Except FmtErr (List StepResult)
  | [] => Except.ok []
  | (sid, sd) :: rest =>
    match processEntry channelFormat lookup fetch ok1 sid sd with
    | Except.error e => Except.error e
    | Except.ok r =>
      match processEntries channelFormat lookup fetch ok1 rest with
      | Except.error e => Except.error e
      | Except.ok rs => Except.ok (r :: rs)

/-- Lines 386-421 of `refresh_servers`, one entry of the manual-refresh
loop: same skip conditions as the background pass, but `channel.edit` is
called unconditionally (the current name is never compared). -/
def processEntryRefresh (channelFormat : String) (lookup : Nat → Option Channel)
    (fetch : String → FetchResult) (ok1 : Nat → Bool)
    (bmServerId : String) (sd : ServerData) : Except FmtErr StepResult :=
  match sd.channelIdTruthy with
  | none => Except.ok ⟨false, none, false, false⟩
  | some cid =>
    match lookup cid with
    | none => Except.ok ⟨false, none, false, false⟩
    | some _channel =>
      match fetch bmServerId with
      | FetchResult.payload p =>
        match refreshNameRaw channelFormat sd p.attrsD with
        | Except.error e => Except.error e
        | Except.ok newName => Except.ok ⟨true, some newName, !(ok1 cid), true⟩
      | _ => Except.ok ⟨true, none, false, false⟩

/-- Effect of one entry's outcome on its destination channel: a successful
rename installs the new name, a failed or skipped one leaves it unchanged. -/
def applyResult (ch : Channel) (r : StepResult) : Channel :=
  match r.editCall with
  | some n => if r.editFailed then ch else ⟨n⟩
  | none => ch

/-- Boolean success test on a per-entry outcome. -/
def isOkB : Except FmtErr StepResult → Bool
  | Except.ok _ => true
  | Except.error _ => false

example : pyFormat "[{players}/{max}] {name}" (stdVals 12 64 "Alpha" "online") =
    Except.ok "[12/64] Alpha" := rfl

example : newNameRaw "[{players}/{max}] {name}" ⟨some 1, some "My Server"⟩
    ⟨none, none, some "Alpha", some "offline"⟩ = Except.ok "[OFFLINE] My Server" := rfl

/-- C1: for a snapshot whose (defaulted) status is `"offline"`, the
background-pass formatter yields exactly `"[OFFLINE] "` followed by the
stored custom name when present, else the snapshot name; the template is
bypassed entirely (any two templates agree). -/
theorem offline_override_bypasses_template (fmt fmt2 : String) (sd : ServerData)
    (attrs : Attributes) (h : attrs.statusD = "offline") :
    newNameRaw fmt sd attrs = Except.ok ("[OFFLINE] " ++ sd.name.getD attrs.nameD)
    ∧ newNameRaw fmt sd attrs = newNameRaw fmt2 sd attrs := by
  constructor <;> simp [newNameRaw, h]

/-- Witness for C1 at a concrete offline snapshot with a stored custom name. -/
theorem offline_override_bypasses_template_witness :
    newNameRaw "{status} up" ⟨some 1, some "Cust"⟩
        ⟨some 0, some 0, some "S", some "offline"⟩ =
      Except.ok "[OFFLINE] Cust" :=
  (offline_override_bypasses_template "{status} up" "" ⟨some 1, some "Cust"⟩
    ⟨some 0, some 0, some "S", some "offline"⟩ rfl).1

/-- A 100-character stored name used to exhibit the missing truncation. -/
def longStoredName : String := String.mk (List.replicate 100 (Char.ofNat 97))

/-- C2 fails on the manual-refresh offline branch: on a concrete offline
snapshot whose stored name has 100 characters, `refresh_servers` applies the
untruncated 110-character name, while the background pass truncates the very
same inputs to 100 characters. -/
theorem refresh_offline_name_untruncated :
    refreshNameRaw "[{players}/{max}] {name}" ⟨some 5, some longStoredName⟩
        ⟨some 3, some 10, some "Srv", some "offline"⟩ =
      Except.ok ("[OFFLINE] " ++ longStoredName)
    ∧ ("[OFFLINE] " ++ longStoredName).length = 110
    ∧ computeNewName "[{players}/{max}] {name}" ⟨some 5, some longStoredName⟩
        ⟨some 3, some 10, some "Srv", some "offline"⟩ =
      Except.ok (strTake ("[OFFLINE] " ++ longStoredName) 100)
    ∧ (strTake ("[OFFLINE] " ++ longStoredName) 100).length = 100 :=
  ⟨rfl, by decide, rfl, by decide⟩

/-- C6 counterexample: a concrete entry whose stored channel id resolves to
no channel is skipped with `fetchAttempted = false` — the fetch is *not*
performed, contradicting the claim that only the rename step is skipped. -/
theorem missing_channel_skips_fetch_cex :
    processEntry "[{players}/{max}] {name}" (fun _ => none)
        (fun _ => FetchResult.payload ⟨some ⟨some 9, some 20, some "S", some "online"⟩⟩)
        (fun _ => true) "77" ⟨some 7, some "N"⟩ =
      Except.ok ⟨false, none, false, false⟩ := rfl

/-- C6 amended: when the stored channel id does not resolve to a channel,
the entry is skipped before the fetch — no fetch, no rename, no pacing
delay — and processing continues without error. -/
theorem missing_channel_skips_entry (fmt : String) (lookup : Nat → Option Channel)
    (fetch : String → FetchResult) (ok1 : Nat → Bool) (sid : String)
    (sd : ServerData) (cid : Nat)
    (h1 : sd.channelIdTruthy = some cid) (h2 : lookup cid = none) :
    processEntry fmt lookup fetch ok1 sid sd = Except.ok ⟨false, none, false, false⟩ := by
  simp [processEntry, h1, h2]

/-- Witness for the amended C6 at a concrete entry. -/
theorem missing_channel_skips_entry_witness :
    processEntry "t" (fun _ => none) (fun _ => FetchResult.absent) (fun _ => true)
        "9" ⟨some 3, none⟩ = Except.ok ⟨false, none, false, false⟩ :=
  missing_channel_skips_entry "t" (fun _ => none) (fun _ => FetchResult.absent)
    (fun _ => true) "9" ⟨some 3, none⟩ 3 rfl rfl

/-- C7: `_fetch_server_info` hands back a payload exactly on status 200 (a
missing or empty `data` object degrades to the falsy empty dict) and returns
`absent` on every non-200 status (429 included), on the 30-second timeout
and on any raised network or parsing error; no case propagates an
exception. -/
theorem fetch_payload_iff_status_200 :
    (∀ c d, c ≠ 200 → fetchServerInfo (HttpResult.response c d) = FetchResult.absent)
    ∧ (∀ p, fetchServerInfo (HttpResult.response 200 (JsonData.obj p)) =
        FetchResult.payload p)
    ∧ fetchServerInfo (HttpResult.response 200 JsonData.missing) = FetchResult.emptyData
    ∧ fetchServerInfo (HttpResult.response 200 JsonData.emptyObj) = FetchResult.emptyData
    ∧ fetchServerInfo HttpResult.timeout = FetchResult.absent
    ∧ fetchServerInfo HttpResult.netError = FetchResult.absent
    ∧ (∀ r, fetchServerInfo r ≠ FetchResult.absent → ∃ d, r = HttpResult.response 200 d) := by
  refine ⟨?_, fun p => rfl, rfl, rfl, rfl, rfl, ?_⟩
  · intro c d hc
    simp [fetchServerInfo, hc]
  · intro r hr
    match r with
    | HttpResult.response c d =>
      rcases eq_or_ne c 200 with rfl | hc
      · exact ⟨d, rfl⟩
      · exact absurd (by simp [fetchServerInfo, hc]) hr
    | HttpResult.timeout => exact absurd rfl hr
    | HttpResult.netError => exact absurd rfl hr

/-- Witness for C7: a concrete rate-limited (429) response yields `absent`. -/
theorem fetch_payload_iff_status_200_witness :
    fetchServerInfo (HttpResult.response 429 JsonData.missing) = FetchResult.absent :=
  fetch_payload_iff_status_200.1 429 JsonData.missing (by decide)

/-- C10: the initial channel name computed by `add_server` ignores the
fetched status entirely and equals the background formatter's result for a
snapshot forced to status `"online"` — so the `[OFFLINE]` override is never
applied at creation time, whatever the server's actual fetched status. -/
theorem add_server_uses_online_status (fmt : String) (attrs : Attributes)
    (custom : Option String) (s : Option String) :
    addServerName fmt { attrs with status := s } custom = addServerName fmt attrs custom
    ∧ addServerName fmt attrs custom =
      computeNewName fmt ⟨none, some (addLabel attrs custom)⟩
        { attrs with status := some "online" } :=
  ⟨rfl, rfl⟩

/-- C3: when the destination channel's current name already equals the
computed desired name, no rename call is issued; consequently, for an
unchanged snapshot across two consecutive passes whose rename (if any)
succeeded, the second pass issues no rename at all. -/
theorem skip_rename_when_name_unchanged (fmt : String) (ch : Channel)
    (fetch : String → FetchResult) (ok1 : Nat → Bool) (sid : String) (sd : ServerData)
    (cid : Nat) (p : Payload) (desired : String)
    (hcid : sd.channelIdTruthy = some cid)
    (hfetch : fetch sid = FetchResult.payload p)
    (hname : computeNewName fmt sd p.attrsD = Except.ok desired) :
    (ch.name = desired →
      processEntry fmt (fun _ => some ch) fetch ok1 sid sd =
        Except.ok ⟨true, none, false, true⟩)
    ∧ (ok1 cid = true →
      ∀ r, processEntry fmt (fun _ => some ch) fetch ok1 sid sd = Except.ok r →
        processEntry fmt (fun _ => some (applyResult ch r)) fetch ok1 sid sd =
          Except.ok ⟨true, none, false, true⟩) := by
  constructor
  · intro he
    simp [processEntry, hcid, hfetch, hname, he]
  · intro hok r hr
    by_cases he : ch.name = desired
    · have hx : processEntry fmt (fun _ => some ch) fetch ok1 sid sd =
          Except.ok ⟨true, none, false, true⟩ := by
        simp [processEntry, hcid, hfetch, hname, he]
      have hr2 : (⟨true, none, false, true⟩ : StepResult) = r :=
        Except.ok.inj (hx.symm.trans hr)
      subst hr2
      simp [processEntry, applyResult, hcid, hfetch, hname, he]
    · have hx : processEntry fmt (fun _ => some ch) fetch ok1 sid sd =
          Except.ok ⟨true, some desired, !(ok1 cid), true⟩ := by
        simp [processEntry, hcid, hfetch, hname, he]
      have hr2 : (⟨true, some desired, !(ok1 cid), true⟩ : StepResult) = r :=
        Except.ok.inj (hx.symm.trans hr)
      subst hr2
      have hch : applyResult ch ⟨true, some desired, !(ok1 cid), true⟩ = ⟨desired⟩ := by
        simp [applyResult, hok]
      rw [hch]
      simp [processEntry, hcid, hfetch, hname]

/-- Witness for C3 at a concrete entry whose channel already carries the
desired name. -/
theorem skip_rename_when_name_unchanged_witness :
    processEntry "[{players}/{max}] {name}" (fun _ => some ⟨"[3/10] A"⟩)
        (fun _ => FetchResult.payload ⟨some ⟨some 3, some 10, some "S", some "online"⟩⟩)
        (fun _ => true) "42" ⟨some 5, some "A"⟩ =
      Except.ok ⟨true, none, false, true⟩ :=
  (skip_rename_when_name_unchanged "[{players}/{max}] {name}" ⟨"[3/10] A"⟩
      (fun _ => FetchResult.payload ⟨some ⟨some 3, some 10, some "S", some "online"⟩⟩)
      (fun _ => true) "42" ⟨some 5, some "A"⟩ 5
      ⟨some ⟨some 3, some 10, some "S", some "online"⟩⟩ "[3/10] A"
      rfl rfl rfl).1 rfl

/-- C5: the fixed 2-second pacing sleep runs after every entry that reaches
the apply step — whether the rename was issued, skipped as a no-op, or
failed — and does not run after an entry skipped at the fetch stage. -/
theorem pacing_delay_iff_apply_reached (fmt : String) (lookup : Nat → Option Channel)
    (fetch : String → FetchResult) (ok1 : Nat → Bool) (sid : String) (sd : ServerData) :
    (∀ cid ch p nm r, sd.channelIdTruthy = some cid → lookup cid = some ch →
      fetch sid = FetchResult.payload p →
      computeNewName fmt sd p.attrsD = Except.ok nm →
      processEntry fmt lookup fetch ok1 sid sd = Except.ok r → r.slept = true)
    ∧ (∀ cid ch, sd.channelIdTruthy = some cid → lookup cid = some ch →
      fetch sid = FetchResult.absent →
      processEntry fmt lookup fetch ok1 sid sd = Except.ok ⟨true, none, false, false⟩) := by
  constructor
  · intro cid ch p nm r h1 h2 h3 h4 h5
    by_cases he : ch.name = nm
    · have hx : processEntry fmt lookup fetch ok1 sid sd =
          Except.ok ⟨true, none, false, true⟩ := by
        simp [processEntry, h1, h2, h3, h4, he]
      have hr2 : (⟨true, none, false, true⟩ : StepResult) = r :=
        Except.ok.inj (hx.symm.trans h5)
      subst hr2
      rfl
    · have hx : processEntry fmt lookup fetch ok1 sid sd =
          Except.ok ⟨true, some nm, !(ok1 cid), true⟩ := by
        simp [processEntry, h1, h2, h3, h4, he]
      have hr2 : (⟨true, some nm, !(ok1 cid), true⟩ : StepResult) = r :=
        Except.ok.inj (hx.symm.trans h5)
      subst hr2
      rfl
  · intro cid ch h1 h2 h3
    simp [processEntry, h1, h2, h3]

/-- Witness for C5: a concrete fetch-stage skip carries no pacing sleep. -/
theorem pacing_delay_iff_apply_reached_witness :
    processEntry "t" (fun _ => some ⟨"C"⟩) (fun _ => FetchResult.absent) (fun _ => true)
        "7" ⟨some 2, none⟩ = Except.ok ⟨true, none, false, false⟩ :=
  (pacing_delay_iff_apply_reached "t" (fun _ => some ⟨"C"⟩) (fun _ => FetchResult.absent)
      (fun _ => true) "7" ⟨some 2, none⟩).2 2 ⟨"C"⟩ rfl rfl rfl

/-- C4 counterexample: with the tenant template `"{foo}"`, formatting the
first entry raises `KeyError`, the exception propagates out of the entry
loop, and the second entry of the same tenant is never processed. -/
theorem format_error_aborts_tenant_scope :
    processEntries "{foo}" (fun _ => some ⟨"X"⟩)
        (fun _ => FetchResult.payload ⟨some ⟨some 1, some 2, some "S", some "online"⟩⟩)
        (fun _ => true)
        [("A", ⟨some 1, some "NA"⟩), ("B", ⟨some 2, some "NB"⟩)] =
      Except.error (FmtErr.keyError "foo") := rfl

/-- C4 amended: a fetch returning absent and a rename rejection
(`discord.HTTPException`, caught and logged) never abort the tenant scope;
the only per-entry abort cause is an exception raised while formatting the
name (such as an unknown template placeholder), and whenever no entry of the
tenant raises a formatting error, every entry of the tenant is processed. -/
theorem entry_failures_isolated_unless_format_error (fmt : String)
    (lookup : Nat → Option Channel) (fetch : String → FetchResult) (ok1 : Nat → Bool)
    (entries : List (String × ServerData)) :
    (∀ sid sd e, processEntry fmt lookup fetch ok1 sid sd = Except.error e →
      ∃ p, fetch sid = FetchResult.payload p ∧
        computeNewName fmt sd p.attrsD = Except.error e)
    ∧ (entries.all (fun en => isOkB (processEntry fmt lookup fetch ok1 en.1 en.2)) = true →
      ∃ rs, processEntries fmt lookup fetch ok1 entries = Except.ok rs ∧
        rs.length = entries.length) := by
  constructor
  · intro sid sd e he
    rcases h1 : sd.channelIdTruthy with _ | cid
    · simp [processEntry, h1] at he
    · rcases h2 : lookup cid with _ | ch
      · simp [processEntry, h1, h2] at he
      · rcases h3 : fetch sid with _ | _ | p
        · simp [processEntry, h1, h2, h3] at he
        · simp [processEntry, h1, h2, h3] at he
        · rcases h4 : computeNewName fmt sd p.attrsD with e2 | nm
          · simp [processEntry, h1, h2, h3, h4] at he
            subst he
            exact ⟨p, rfl, h4⟩
          · by_cases he2 : ch.name = nm <;>
              simp [processEntry, h1, h2, h3, h4, he2] at he
  · induction entries with
    | nil => intro _; exact ⟨[], rfl, rfl⟩
    | cons en rest ih =>
      obtain ⟨sid, sd⟩ := en
      intro hall
      simp only [List.all_cons, Bool.and_eq_true] at hall
      obtain ⟨hhd, htl⟩ := hall
      obtain ⟨rs, hrs, hlen⟩ := ih htl
      rcases hx : processEntry fmt lookup fetch ok1 sid sd with e | r
      · rw [hx] at hhd
        simp [isOkB] at hhd
      · exact ⟨r :: rs, by simp [processEntries, hx, hrs], by simp [hlen]⟩

/-- Witness for the amended C4: entry A's fetch is absent, yet entry B of
the same tenant is still processed in the same pass. -/
theorem entry_failures_isolated_witness :
    ∃ rs, processEntries "[{players}/{max}] {name}" (fun _ => some ⟨"old"⟩)
        (fun sid => if sid = "A" then FetchResult.absent
          else FetchResult.payload ⟨some ⟨some 1, some 2, some "S", some "online"⟩⟩)
        (fun _ => true)
        [("A", ⟨some 1, some "NA"⟩), ("B", ⟨some 2, some "NB"⟩)] = Except.ok rs ∧
      rs.length = 2 :=
  (entry_failures_isolated_unless_format_error "[{players}/{max}] {name}"
      (fun _ => some ⟨"old"⟩)
      (fun sid => if sid = "A" then FetchResult.absent
        else FetchResult.payload ⟨some ⟨some 1, some 2, some "S", some "online"⟩⟩)
      (fun _ => true)
      [("A", ⟨some 1, some "NA"⟩), ("B", ⟨some 2, some "NB"⟩)]).2 (by decide)

/-- C9 counterexample: with identical template, snapshot and stored entry,
and a channel already carrying the desired name `"[4/8] B"`, the background
pass issues no rename while the manual refresh calls `channel.edit`
unconditionally — the two paths do not share the skip-when-unchanged
policy. -/
theorem refresh_renames_unconditionally_cex :
    processEntry "[{players}/{max}] {name}" (fun _ => some ⟨"[4/8] B"⟩)
        (fun _ => FetchResult.payload ⟨some ⟨some 4, some 8, some "S", some "online"⟩⟩)
        (fun _ => true) "11" ⟨some 6, some "B"⟩ = Except.ok ⟨true, none, false, true⟩
    ∧ processEntryRefresh "[{players}/{max}] {name}" (fun _ => some ⟨"[4/8] B"⟩)
        (fun _ => FetchResult.payload ⟨some ⟨some 4, some 8, some "S", some "online"⟩⟩)
        (fun _ => true) "11" ⟨some 6, some "B"⟩ =
      Except.ok ⟨true, some "[4/8] B", false, true⟩ :=
  ⟨rfl, rfl⟩

/-- C9 amended: for a stored entry carrying a name and a non-offline
snapshot, the manual refresh computes the same desired name as the
background pass; its offline branch instead uses the fallback label
`"Unknown"` without truncation; and the refresh issues the rename
unconditionally rather than skipping when the current name is unchanged. -/
theorem refresh_matches_background_nonoffline (fmt : String)
    (lookup : Nat → Option Channel) (fetch : String → FetchResult) (ok1 : Nat → Bool)
    (sid : String) (sd : ServerData) (attrs : Attributes) :
    (∀ n, sd.name = some n → attrs.statusD ≠ "offline" →
      refreshNameRaw fmt sd attrs = computeNewName fmt sd attrs)
    ∧ (attrs.statusD = "offline" →
      refreshNameRaw fmt sd attrs = Except.ok ("[OFFLINE] " ++ sd.name.getD "Unknown"))
    ∧ (∀ cid ch p nm, sd.channelIdTruthy = some cid → lookup cid = some ch →
      fetch sid = FetchResult.payload p →
      refreshNameRaw fmt sd p.attrsD = Except.ok nm →
      processEntryRefresh fmt lookup fetch ok1 sid sd =
        Except.ok ⟨true, some nm, !(ok1 cid), true⟩) := by
  refine ⟨?_, ?_, ?_⟩
  · intro n hn hst
    simp [refreshNameRaw, computeNewName, newNameRaw, hst, hn]
  · intro hst
    simp [refreshNameRaw, hst]
  · intro cid ch p nm h1 h2 h3 h4
    simp [processEntryRefresh, h1, h2, h3, h4]

/-- Witness for the amended C9: the refresh path issues the rename at a
concrete entry whose current channel name differs from the desired one. -/
theorem refresh_matches_background_witness :
    processEntryRefresh "[{players}/{max}] {name}" (fun _ => some ⟨"old"⟩)
        (fun _ => FetchResult.payload ⟨some ⟨some 4, some 8, some "S", some "online"⟩⟩)
        (fun _ => true) "11" ⟨some 6, some "B"⟩ =
      Except.ok ⟨true, some "[4/8] B", false, true⟩ :=
  (refresh_matches_background_nonoffline "[{players}/{max}] {name}" (fun _ => some ⟨"old"⟩)
      (fun _ => FetchResult.payload ⟨some ⟨some 4, some 8, some "S", some "online"⟩⟩)
      (fun _ => true) "11" ⟨some 6, some "B"⟩
      ⟨some 4, some 8, some "S", some "online"⟩).2.2 6 ⟨"old"⟩
      ⟨some ⟨some 4, some 8, some "S", some "online"⟩⟩ "[4/8] B" rfl rfl rfl rfl

/-- Running the tokenizer in field mode over a brace-free remainder: it
accumulates the remainder, closes the field at the next closing brace, and
resumes scanning in literal mode. -/
theorem tokenizeAux_field_run (ks : List Char) (acc rest : List Char)
    (h : ∀ c ∈ ks, c ≠ lbraceC ∧ c ≠ rbraceC) :
    tokenizeAux (some acc) (ks ++ rbraceC :: rest) =
      if (String.mk (acc.reverse ++ ks)).data.all Char.isDigit then
        Except.error FmtErr.indexError
      else
        (tokenizeAux none rest).map
          (fun ts => FTok.field (String.mk (acc.reverse ++ ks)) :: ts) := by
  revert h
  induction ks generalizing acc with
  | nil =>
    intro _
    simp [tokenizeAux]
  | cons k ks2 ih =>
    intro h
    have hk1 : k ≠ lbraceC := (h k (by simp)).1
    have hk2 : k ≠ rbraceC := (h k (by simp)).2
    have hrest : ∀ c ∈ ks2, c ≠ lbraceC ∧ c ≠ rbraceC := fun c hc => h c (by simp [hc])
    rw [List.cons_append]
    rw [show tokenizeAux (some acc) (k :: (ks2 ++ rbraceC :: rest)) =
        tokenizeAux (some (k :: acc)) (ks2 ++ rbraceC :: rest) by
      simp [tokenizeAux, hk1, hk2]]
    rw [ih (k :: acc) hrest]
    simp [List.append_assoc]

/-- C8 counterexample: formatting a concrete non-offline snapshot with the
template `"{foo}"` raises `KeyError` instead of leaving the placeholder
un-substituted in the result. -/
theorem unknown_placeholder_raises_cex :
    newNameRaw "{foo}" ⟨some 1, some "N"⟩ ⟨some 1, some 2, some "S", some "online"⟩ =
      Except.error (FmtErr.keyError "foo") := rfl

/-- C8 amended: formatting a non-offline snapshot against a template that
consists of one unknown plain (brace-free, non-positional) placeholder
raises `KeyError` naming that placeholder — the exception propagates instead
of the placeholder being silently left un-substituted. -/
theorem unknown_placeholder_raises_keyerror (key : String) (sd : ServerData)
    (attrs : Attributes)
    (hbr : ∀ c ∈ key.data, c ≠ lbraceC ∧ c ≠ rbraceC)
    (hdig : key.data.all Char.isDigit = false)
    (hp : key ≠ "players") (hm : key ≠ "max") (hn : key ≠ "name") (hs : key ≠ "status")
    (hst : attrs.statusD ≠ "offline") :
    newNameRaw (String.mk (lbraceC :: (key.data ++ [rbraceC]))) sd attrs =
      Except.error (FmtErr.keyError key) := by
  obtain ⟨kd⟩ := key
  rcases kd with _ | ⟨k, kd2⟩
  · simp at hdig
  · have hk1 : k ≠ lbraceC := (hbr k (by simp)).1
    have hk2 : k ≠ rbraceC := (hbr k (by simp)).2
    have hrest : ∀ c ∈ kd2, c ≠ lbraceC ∧ c ≠ rbraceC := fun c hc => hbr c (by simp [hc])
    have htok : tokenizeAux none (lbraceC :: ((k :: kd2) ++ [rbraceC])) =
        Except.ok [FTok.field (String.mk (k :: kd2))] := by
      rw [show tokenizeAux none (lbraceC :: ((k :: kd2) ++ [rbraceC])) =
          tokenizeAux (some [k]) (kd2 ++ rbraceC :: []) by
        simp [tokenizeAux, hk1, hk2]]
      rw [tokenizeAux_field_run kd2 [k] [] hrest]
      have hd2 : (String.mk ([k].reverse ++ kd2)).data.all Char.isDigit = false := hdig
      rw [if_neg (by simpa using hd2)]
      simp [tokenizeAux, Except.map]
    rw [newNameRaw, if_neg hst]
    show pyFormat (String.mk (lbraceC :: ((k :: kd2) ++ [rbraceC]))) _ = _
    rw [pyFormat]
    rw [show (String.mk (lbraceC :: ((k :: kd2) ++ [rbraceC]))).data =
        lbraceC :: ((k :: kd2) ++ [rbraceC]) from rfl]
    rw [htok]
    simp [renderToks, stdVals, hp, hm, hn, hs, Except.map]

/-- Witness for the amended C8 at the placeholder name `foo`. -/
theorem unknown_placeholder_raises_keyerror_witness :
    newNameRaw (String.mk (lbraceC :: ("foo".data ++ [rbraceC]))) ⟨some 1, some "N"⟩
        ⟨some 1, some 2, some "S", some "online"⟩ =
      Except.error (FmtErr.keyError "foo") :=
  unknown_placeholder_raises_keyerror "foo" ⟨some 1, some "N"⟩
    ⟨some 1, some 2, some "S", some "online"⟩ (by decide) (by decide)
    (by decide) (by decide) (by decide) (by decide) (by decide)
